import Mathlib

/-!
Shallow embedding of `src/chat.rs` of the `openai` Rust crate: the typed
chat-completion data model, the serde-derived JSON decoding of streamed
delta records, the event-stream-to-channel bridge
`forward_deserialized_chat_response_stream`, the stream constructor
`ChatCompletionDelta::create`, and the request builder's `create_stream`.

Conventions of the embedding:
* JSON payloads are modelled as parsed JSON trees (`Json`); the call
  `serde_json::from_str::<ChatCompletionDelta>(&event.data)` is the external
  text-level JSON parser composed with the serde-derived deserializer, and
  the derived deserializer is embedded as `ChatCompletionDelta.from_json`.
* The SSE source `stream.next()` yields a lazy sequence of
  `Option<Result<Event, reqwest_eventsource::Error>>`; it is embedded as a
  finite list `List (Except String Event)` where the end of the list is
  clean exhaustion (`next()` returning `None`).
* The tokio mpsc channel is modelled by its observable behaviour at the
  sender: `tx.send` succeeds while the receiver is alive and fails once the
  receiver has been dropped.  `dropAfter = some m` means the consumer
  accepts `m` records and then drops its receiving end; `none` means the
  consumer never drops it.
* The bridge produces a trace of `Action`s: one `Action.send` per record
  actually delivered to the queue, terminated by exactly one `Action.close`
  marking the point where the loop exits and the sender is dropped.
* `f32` values are never computed with in the code in scope; they are
  carried bit-for-bit and embedded as a 32-bit pattern `F32`.
-/

namespace OpenAI

/-- A parsed JSON document (`serde_json::Value` shape, numbers as integers;
no float-valued field occurs in the decoded record types in scope). -/
inductive Json where
  | null
  | bool (b : Bool)
  | num (n : Int)
  | str (s : String)
  | arr (elems : List Json)
  | obj (fields : List (String × Json))

/-- Field lookup in a JSON object body: first binding of the key wins. -/
def lookupField (fields : List (String × Json)) (key : String) : Option Json :=
  match fields with
  | [] => none
  | (k, v) :: rest => if k = key then some v else lookupField rest key

/-- Serde deserialization of a Rust `String` field. -/
def decodeString : Json → Except String String
  | Json.str s => Except.ok s
  | _ => Except.error "invalid type: expected a string"

/-- Serde deserialization of a Rust `u64` field: an integer in `[0, 2^64)`. -/
def decodeU64 : Json → Except String Nat
  | Json.num n =>
    if 0 ≤ n ∧ n < 2 ^ 64 then Except.ok n.toNat
    else Except.error "invalid value: integer out of range of u64"
  | _ => Except.error "invalid type: expected an integer"

/-- Serde handling of a non-`Option` struct field: the key must be present
in the object and its value must deserialize. -/
def decodeReqField (dec : Json → Except String α)
    (fields : List (String × Json)) (key : String) : Except String α :=
  match lookupField fields key with
  | none => Except.error ("missing field " ++ key)
  | some v => dec v

/-- Serde handling of an `Option<T>` struct field: an absent key or an
explicit `null` decodes to `None`, any other value must deserialize to a
`Some`. -/
def decodeOptField (dec : Json → Except String α)
    (fields : List (String × Json)) (key : String) : Except String (Option α) :=
  match lookupField fields key with
  | none => Except.ok none
  | some Json.null => Except.ok none
  | some v => Except.map some (dec v)

/-- Serde deserialization of a `Vec<T>` field: a JSON array, every element
of which deserializes. -/
def decodeList (dec : Json → Except String α) : Json → Except String (List α)
  | Json.arr xs => xs.mapM dec
  | _ => Except.error "invalid type: expected an array"

/-- Modelled from the spec: the `Usage` type comes from the crate root
(`super::Usage`), which is not among the source files in scope; the spec's
record schema mentions the field only as the optional `usage?` and gives it
no internal shape, so it is modelled as an opaquely carried decoded
payload.  No theorem in this development exercises a present `usage`
field. -/
structure Usage where
  raw : Json

/-- Modelled from the spec: deserialization of the out-of-scope `Usage`
payload (see `Usage`). -/
def Usage.from_json (j : Json) : Except String Usage := Except.ok ⟨j⟩

/-- The role of the author of a message (`ChatCompletionMessageRole`),
serde-renamed to lowercase. -/
inductive ChatCompletionMessageRole where
  | system
  | user
  | assistant

/-- Serde deserialization of `ChatCompletionMessageRole` (lowercase
variant names). -/
def ChatCompletionMessageRole.from_json :
    Json → Except String ChatCompletionMessageRole
  | Json.str "system" => Except.ok ChatCompletionMessageRole.system
  | Json.str "user" => Except.ok ChatCompletionMessageRole.user
  | Json.str "assistant" => Except.ok ChatCompletionMessageRole.assistant
  | _ => Except.error "unknown variant of ChatCompletionMessageRole"

/-- A chat message (`ChatCompletionMessage`). -/
structure ChatCompletionMessage where
  role : ChatCompletionMessageRole
  content : String
  name : Option String

/-- Same as `ChatCompletionMessage`, but received during a response stream
(`ChatCompletionMessageDelta`): every field is optional. -/
structure ChatCompletionMessageDelta where
  role : Option ChatCompletionMessageRole
  content : Option String
  name : Option String

/-- Serde-derived deserialization of `ChatCompletionMessageDelta`. -/
def ChatCompletionMessageDelta.from_json (j : Json) :
    Except String ChatCompletionMessageDelta :=
  match j with
  | Json.obj fields => do
    let role ← decodeOptField ChatCompletionMessageRole.from_json fields "role"
    let content ← decodeOptField decodeString fields "content"
    let name ← decodeOptField decodeString fields "name"
    Except.ok { role := role, content := content, name := name }
  | _ => Except.error "invalid type: expected an object"

/-- One streamed choice (`ChatCompletionChoiceDelta`): `index` and `delta`
are required, `finish_reason` is optional. -/
structure ChatCompletionChoiceDelta where
  index : Nat
  finish_reason : Option String
  delta : ChatCompletionMessageDelta

/-- Serde-derived deserialization of `ChatCompletionChoiceDelta`. -/
def ChatCompletionChoiceDelta.from_json (j : Json) :
    Except String ChatCompletionChoiceDelta :=
  match j with
  | Json.obj fields => do
    let index ← decodeReqField decodeU64 fields "index"
    let finish_reason ← decodeOptField decodeString fields "finish_reason"
    let delta ← decodeReqField ChatCompletionMessageDelta.from_json fields "delta"
    Except.ok { index := index, finish_reason := finish_reason, delta := delta }
  | _ => Except.error "invalid type: expected an object"

/-- The generic completion envelope (`ChatCompletionGeneric<C>`): `id`,
`object`, `created`, `model` and `choices` are required, `usage` is
optional. -/
structure ChatCompletionGeneric (C : Type) where
  id : String
  object : String
  created : Nat
  model : String
  choices : List C
  usage : Option Usage

/-- Serde-derived deserialization of `ChatCompletionGeneric<C>`, generic in
the deserializer for the choice type. -/
def ChatCompletionGeneric.from_json (decC : Json → Except String C) (j : Json) :
    Except String (ChatCompletionGeneric C) :=
  match j with
  | Json.obj fields => do
    let id ← decodeReqField decodeString fields "id"
    let object ← decodeReqField decodeString fields "object"
    let created ← decodeReqField decodeU64 fields "created"
    let model ← decodeReqField decodeString fields "model"
    let choices ← decodeReqField (decodeList decC) fields "choices"
    let usage ← decodeOptField Usage.from_json fields "usage"
    Except.ok { id := id, object := object, created := created, model := model,
                choices := choices, usage := usage }
  | _ => Except.error "invalid type: expected an object"

/-- A delta chat completion, streamed token by token
(`type ChatCompletionDelta = ChatCompletionGeneric<ChatCompletionChoiceDelta>`). -/
abbrev ChatCompletionDelta := ChatCompletionGeneric ChatCompletionChoiceDelta

/-- The full deserializer used by the bridge:
`serde_json::from_str::<ChatCompletionDelta>` after text-level parsing. -/
def ChatCompletionDelta.from_json (j : Json) : Except String ChatCompletionDelta :=
  ChatCompletionGeneric.from_json ChatCompletionChoiceDelta.from_json j

/-- A raw server-sent event as delivered by `reqwest_eventsource`:
`Event::Message` carries the (parsed) `data` payload; `Event::Open` and any
other non-message variant are collapsed into `other`, matching the bridge's
wildcard arm. -/
inductive Event where
  | message (payload : Json)
  | other

/-- One observable step of the bridge at the queue boundary: a successful
`tx.send` of a record, or the closing of the queue (the sender being
dropped when the bridge's run loop exits). -/
inductive Action where
  | send (completion : ChatCompletionDelta)
  | close

/-- The terminal failure of the bridge task (the `anyhow::Error` carried by
`Err`): a transport-level error from `stream.next()`, a deserialization
error from `serde_json::from_str`, or a `tx.send` failure. -/
inductive BridgeError where
  | transportError (e : String)
  | decodeError (e : String)
  | sendError

/-- Whether the `sent`-th `tx.send` (0-indexed) succeeds: always, if the
consumer never drops the receiver; for a consumer that drops the receiver
after accepting `m` records, exactly the first `m` sends succeed. -/
def sendOk (dropAfter : Option Nat) (sent : Nat) : Bool :=
  match dropAfter with
  | none => true
  | some m => sent < m

/-- The run loop of `forward_deserialized_chat_response_stream`, carrying
the count of records sent so far.  Each terminating branch emits the single
`Action.close` that models the sender being dropped on loop exit. -/
def forwardLoop (dropAfter : Option Nat) :
    List (Except String Event) → Nat → List Action × Except BridgeError Unit
  | [], _ => ([Action.close], Except.ok ())
  | Except.error e :: _, _ =>
    ([Action.close], Except.error (BridgeError.transportError e))
  | Except.ok (Event.message d) :: rest, sent =>
    match ChatCompletionDelta.from_json d with
    | Except.error e => ([Action.close], Except.error (BridgeError.decodeError e))
    | Except.ok completion =>
      if sendOk dropAfter sent then
        let next := forwardLoop dropAfter rest (sent + 1)
        (Action.send completion :: next.1, next.2)
      else
        ([Action.close], Except.error BridgeError.sendError)
  | Except.ok Event.other :: rest, sent => forwardLoop dropAfter rest sent

/-- The bridge `forward_deserialized_chat_response_stream`: consumes the
event source and returns the trace of queue actions together with the
task's terminal `anyhow::Result<()>` outcome. -/
def forward_deserialized_chat_response_stream
    (stream : List (Except String Event)) (dropAfter : Option Nat) :
    List Action × Except BridgeError Unit :=
  forwardLoop dropAfter stream 0

/-- The `data` payloads of the `Message` events of a source, in arrival
order. -/
def messagePayloads (events : List (Except String Event)) : List Json :=
  events.filterMap fun ev =>
    match ev with
    | Except.ok (Event.message d) => some d
    | _ => none

/-- The successfully decoded records of a source's `Message` payloads, in
arrival order. -/
def decodedRecords (events : List (Except String Event)) : List ChatCompletionDelta :=
  (messagePayloads events).filterMap fun d => (ChatCompletionDelta.from_json d).toOption

/-- The records delivered to the queue along a trace. -/
def sentRecords (trace : List Action) : List ChatCompletionDelta :=
  trace.filterMap fun a =>
    match a with
    | Action.send c => some c
    | Action.close => none

/-- Whether pulling this event from the source succeeded. -/
def isOkEvent : Except String Event → Bool
  | Except.ok _ => true
  | Except.error _ => false

/-- Whether this event is a successfully pulled non-`Message` event. -/
def isOtherEvent : Except String Event → Bool
  | Except.ok Event.other => true
  | _ => false

/-- What `ChatCompletionDelta::create` hands back to the caller: the
receiving end of the `channel::<Self>(32)` queue (with its capacity and the
records the receiver will observe) and the `JoinHandle` of the spawned
bridge task (with the outcome awaiting it). -/
structure BridgeSetup where
  capacity : Nat
  received : List ChatCompletionDelta
  handleOutcome : Except BridgeError Unit

/-- `ChatCompletionDelta::create`: opens the event stream via
`openai_request_stream` (external to the file in scope; embedded as the
already-determined result of that call, either a `StreamError` or the event
sequence), creates the bounded channel of capacity 32, and spawns the
bridge.  The consumer's drop behaviour is a parameter of the model. -/
def ChatCompletionDelta.create
    (streamResult : Except String (List (Except String Event)))
    (dropAfter : Option Nat) : Except String BridgeSetup :=
  match streamResult with
  | Except.error e => Except.error e
  | Except.ok events =>
    let run := forward_deserialized_chat_response_stream events dropAfter
    Except.ok { capacity := 32, received := sentRecords run.1, handleOutcome := run.2 }

/-- An `f32` value carried bit-for-bit (no float arithmetic occurs in the
code in scope). -/
structure F32 where
  bits : Nat

/-- The request payload `ChatCompletionRequest`. -/
structure ChatCompletionRequest where
  model : String
  messages : List ChatCompletionMessage
  temperature : Option F32
  top_p : Option F32
  n : Option Nat
  stream : Option Bool
  stop : List String
  max_tokens : Option Nat
  presence_penalty : Option F32
  frequency_penalty : Option F32
  logit_bias : Option (List (String × F32))
  user : String

/-- The derive_builder-generated `ChatCompletionBuilder` (owned pattern):
every field is an `Option` around the target field, `none` meaning the
caller never set it. -/
structure ChatCompletionBuilder where
  model : Option String := none
  messages : Option (List ChatCompletionMessage) := none
  temperature : Option (Option F32) := none
  top_p : Option (Option F32) := none
  n : Option (Option Nat) := none
  stream : Option (Option Bool) := none
  stop : Option (List String) := none
  max_tokens : Option (Option Nat) := none
  presence_penalty : Option (Option F32) := none
  frequency_penalty : Option (Option F32) := none
  logit_bias : Option (Option (List (String × F32))) := none
  user : Option String := none

/-- The derive_builder-generated `build`: `model` and `messages` are
required (no `#[builder(default)]`), every other unset field falls back to
its `Default::default()`. -/
def ChatCompletionBuilder.build (b : ChatCompletionBuilder) :
    Except String ChatCompletionRequest :=
  match b.model, b.messages with
  | some model, some messages =>
    Except.ok { model := model, messages := messages,
                temperature := b.temperature.getD none,
                top_p := b.top_p.getD none,
                n := b.n.getD none,
                stream := b.stream.getD none,
                stop := b.stop.getD [],
                max_tokens := b.max_tokens.getD none,
                presence_penalty := b.presence_penalty.getD none,
                frequency_penalty := b.frequency_penalty.getD none,
                logit_bias := b.logit_bias.getD none,
                user := b.user.getD "" }
  | none, _ => Except.error "UninitializedField: model"
  | _, none => Except.error "UninitializedField: messages"

/-- The request issued by `ChatCompletionBuilder::create_stream`: the
builder with `self.stream = Some(Some(true))`, then `build()`. -/
def ChatCompletionBuilder.streamRequest (b : ChatCompletionBuilder) :
    Except String ChatCompletionRequest :=
  ChatCompletionBuilder.build { b with stream := some (some true) }

/-- `ChatCompletionBuilder::create_stream`: overwrite `stream` to
`Some(true)`, build (`unwrap` embedded as error propagation), and delegate
to `ChatCompletionDelta::create`. -/
def ChatCompletionBuilder.create_stream (b : ChatCompletionBuilder)
    (streamResult : Except String (List (Except String Event)))
    (dropAfter : Option Nat) : Except String BridgeSetup :=
  match ChatCompletionBuilder.streamRequest b with
  | Except.error e => Except.error e
  | Except.ok _ => ChatCompletionDelta.create streamResult dropAfter

/-- A minimal well-formed streamed payload carrying one content fragment,
as in the spec's worked scenario. -/
def mkDeltaPayload (c : String) : Json :=
  Json.obj [("id", Json.str "1"), ("object", Json.str "chat.completion.chunk"),
            ("created", Json.num 0), ("model", Json.str "gpt-4"),
            ("choices", Json.arr [Json.obj [("index", Json.num 0),
              ("delta", Json.obj [("content", Json.str c)])]])]

/-- The record `mkDeltaPayload c` decodes to. -/
def mkDelta (c : String) : ChatCompletionDelta :=
  { id := "1", object := "chat.completion.chunk", created := 0, model := "gpt-4",
    choices := [{ index := 0, finish_reason := none,
                  delta := { role := none, content := some c, name := none } }],
    usage := none }

/-- A three-event source with two decodable messages and an interleaved
non-message event, used as concrete witness input. -/
def sampleCleanEvents : List (Except String Event) :=
  [Except.ok (Event.message (mkDeltaPayload "Hello")), Except.ok Event.other,
   Except.ok (Event.message (mkDeltaPayload "!"))]

/-- Number of queue closures along a trace. -/
def countClose : List Action → Nat
  | [] => 0
  | Action.close :: rest => countClose rest + 1
  | Action.send _ :: rest => countClose rest

/-- An optional JSON object entry: present or entirely absent. -/
def optEntry (key : String) (v : Option Json) : List (String × Json) :=
  match v with
  | none => []
  | some j => [(key, j)]

/-- The body of a well-typed streamed choice, with `finish_reason`
present or absent as requested. -/
def sampleChoiceFields (fr ro co na : Bool) : List (String × Json) :=
  [("index", Json.num 0)] ++
  optEntry "finish_reason" (if fr then some (Json.str "stop") else none) ++
  [("delta", Json.obj
    (optEntry "role" (if ro then some (Json.str "assistant") else none) ++
     optEntry "content" (if co then some (Json.str "Hi") else none) ++
     optEntry "name" (if na then some (Json.str "bob") else none)))]

/-- A well-typed streamed payload in which each optional field
(`finish_reason`, and the delta's `role`, `content`, `name`) is present or
absent according to the four flags; the required fields `id`, `object`,
`created`, `model`, `choices`, `index`, `delta` are always present and the
optional `usage` is always absent. -/
def samplePayload (fr ro co na : Bool) : Json :=
  Json.obj [("id", Json.str "chatcmpl-1"), ("object", Json.str "chat.completion.chunk"),
            ("created", Json.num 1700000000), ("model", Json.str "gpt-4"),
            ("choices", Json.arr [Json.obj (sampleChoiceFields fr ro co na)])]

/-- The record `samplePayload fr ro co na` is expected to decode to: absent
optional fields decode to `none`. -/
def sampleRecord (fr ro co na : Bool) : ChatCompletionDelta :=
  { id := "chatcmpl-1", object := "chat.completion.chunk", created := 1700000000,
    model := "gpt-4",
    choices := [{ index := 0,
                  finish_reason := if fr then some "stop" else none,
                  delta := { role := if ro then some ChatCompletionMessageRole.assistant else none,
                             content := if co then some "Hi" else none,
                             name := if na then some "bob" else none } }],
    usage := none }

/-- Removes one key from a JSON object (used to drop a required field from
a sample payload). -/
def removeField (key : String) : Json → Json
  | Json.obj fs => Json.obj (fs.filter fun p => !(decide (p.1 = key)))
  | j => j

/-- `samplePayload` with all optional fields absent and the given top-level
required field removed. -/
def samplePayloadMissing (key : String) : Json :=
  removeField key (samplePayload false false false false)

/-- `samplePayload` with all optional fields absent and the given field
removed from its single choice. -/
def samplePayloadChoiceMissing (key : String) : Json :=
  Json.obj [("id", Json.str "chatcmpl-1"), ("object", Json.str "chat.completion.chunk"),
            ("created", Json.num 1700000000), ("model", Json.str "gpt-4"),
            ("choices", Json.arr
              [removeField key (Json.obj (sampleChoiceFields false false false false))])]

/-- A builder on which the caller has set `model`, `messages`, a
temperature, and explicitly set `stream` to `Some(false)`. -/
def sampleBuilder : ChatCompletionBuilder :=
  { model := some "gpt-4",
    messages := some [{ role := ChatCompletionMessageRole.user,
                        content := "Hello!", name := none }],
    temperature := some (some ⟨0x40000000⟩),
    stream := some (some false) }

/-- The request `sampleBuilder.build` produces. -/
def sampleBuiltRequest : ChatCompletionRequest :=
  { model := "gpt-4",
    messages := [{ role := ChatCompletionMessageRole.user,
                   content := "Hello!", name := none }],
    temperature := some ⟨0x40000000⟩,
    top_p := none, n := none, stream := some false, stop := [],
    max_tokens := none, presence_penalty := none, frequency_penalty := none,
    logit_bias := none, user := "" }

/-- A one-message well-behaved source prefix, used as concrete witness
input for the failure scenarios. -/
def sampleGoodLead : List (Except String Event) :=
  [Except.ok (Event.message (mkDeltaPayload "Hello"))]

theorem messagePayloads_nil : messagePayloads [] = [] := rfl

theorem messagePayloads_cons_message (d : Json) (rest : List (Except String Event)) :
    messagePayloads (Except.ok (Event.message d) :: rest) = d :: messagePayloads rest := rfl

theorem messagePayloads_cons_other (rest : List (Except String Event)) :
    messagePayloads (Except.ok Event.other :: rest) = messagePayloads rest := rfl

theorem messagePayloads_cons_error (e : String) (rest : List (Except String Event)) :
    messagePayloads (Except.error e :: rest) = messagePayloads rest := rfl

theorem decodedRecords_nil : decodedRecords [] = [] := rfl

theorem decodedRecords_cons_message_ok {d : Json} {c : ChatCompletionDelta}
    (rest : List (Except String Event)) (h : ChatCompletionDelta.from_json d = Except.ok c) :
    decodedRecords (Except.ok (Event.message d) :: rest) = c :: decodedRecords rest := by
  simp [decodedRecords, messagePayloads_cons_message, h, Except.toOption]

theorem decodedRecords_cons_message_err {d : Json} {e : String}
    (rest : List (Except String Event)) (h : ChatCompletionDelta.from_json d = Except.error e) :
    decodedRecords (Except.ok (Event.message d) :: rest) = decodedRecords rest := by
  simp [decodedRecords, messagePayloads_cons_message, h, Except.toOption]

theorem decodedRecords_cons_other (rest : List (Except String Event)) :
    decodedRecords (Except.ok Event.other :: rest) = decodedRecords rest := rfl

theorem decodedRecords_cons_error (e : String) (rest : List (Except String Event)) :
    decodedRecords (Except.error e :: rest) = decodedRecords rest := rfl

theorem decode_filterMap_length (ps : List Json)
    (h : ∀ d ∈ ps, (ChatCompletionDelta.from_json d).isOk = true) :
    (ps.filterMap fun d => (ChatCompletionDelta.from_json d).toOption).length = ps.length := by
  induction ps with
  | nil => rfl
  | cons p ps ih =>
    have hp := h p (List.mem_cons_self _ _)
    cases hj : ChatCompletionDelta.from_json p with
    | error e => rw [hj] at hp; simp [Except.isOk, Except.toBool] at hp
    | ok c =>
      have hstep : List.filterMap (fun d => (ChatCompletionDelta.from_json d).toOption) (p :: ps)
          = c :: List.filterMap (fun d => (ChatCompletionDelta.from_json d).toOption) ps := by
        rw [List.filterMap_cons, hj]; rfl
      rw [hstep, List.length_cons, List.length_cons,
        ih (fun d hd => h d (List.mem_cons_of_mem _ hd))]

theorem decodedRecords_length_of_all_ok (events : List (Except String Event))
    (h : ∀ d ∈ messagePayloads events, (ChatCompletionDelta.from_json d).isOk = true) :
    (decodedRecords events).length = (messagePayloads events).length :=
  decode_filterMap_length (messagePayloads events) h

theorem forwardLoop_clean (events : List (Except String Event)) :
    ∀ (n : Nat),
      (∀ ev ∈ events, isOkEvent ev = true) →
      (∀ d ∈ messagePayloads events, (ChatCompletionDelta.from_json d).isOk = true) →
      forwardLoop none events n =
        ((decodedRecords events).map Action.send ++ [Action.close], Except.ok ()) := by
  induction events with
  | nil => intro n _ _; rfl
  | cons ev rest ih =>
    intro n h1 h2
    cases ev with
    | error e =>
      have := h1 _ (List.mem_cons_self _ _)
      simp [isOkEvent] at this
    | ok x =>
      cases x with
      | other =>
        rw [forwardLoop, decodedRecords_cons_other]
        exact ih n (fun e he => h1 e (List.mem_cons_of_mem _ he))
          (fun d hd => h2 d (by rw [messagePayloads_cons_other]; exact hd))
      | message d =>
        have hd := h2 d (by rw [messagePayloads_cons_message]; exact List.mem_cons_self _ _)
        cases hj : ChatCompletionDelta.from_json d with
        | error e => rw [hj] at hd; simp [Except.isOk, Except.toBool] at hd
        | ok c =>
          have ihr := ih (n + 1) (fun e he => h1 e (List.mem_cons_of_mem _ he))
            (fun p hp => h2 p
              (by rw [messagePayloads_cons_message]; exact List.mem_cons_of_mem _ hp))
          rw [decodedRecords_cons_message_ok rest hj, forwardLoop, hj]
          simp [sendOk, ihr]

/-- C1: for a source in which every pull succeeds (so the source ends by
clean exhaustion) and every `Message` payload decodes successfully, the
bridge sends onto the queue exactly the decoded records — one per `Message`
event, in source order — and terminates with the Completed outcome
`Ok(())`. -/
theorem claim_C1_clean_stream (events : List (Except String Event))
    (h1 : ∀ ev ∈ events, isOkEvent ev = true)
    (h2 : ∀ d ∈ messagePayloads events, (ChatCompletionDelta.from_json d).isOk = true) :
    forward_deserialized_chat_response_stream events none =
      ((decodedRecords events).map Action.send ++ [Action.close], Except.ok ()) ∧
    (decodedRecords events).length = (messagePayloads events).length :=
  ⟨forwardLoop_clean events 0 h1 h2, decodedRecords_length_of_all_ok events h2⟩

/-- Witness for C1: on the spec's worked two-fragment scenario the bridge
delivers both records in order and completes. -/
theorem claim_C1_clean_stream_witness :
    forward_deserialized_chat_response_stream sampleCleanEvents none =
      ([Action.send (mkDelta "Hello"), Action.send (mkDelta "!"), Action.close],
       Except.ok ()) ∧
    (decodedRecords sampleCleanEvents).length = (messagePayloads sampleCleanEvents).length :=
  claim_C1_clean_stream sampleCleanEvents (by decide) (by decide)

theorem forwardLoop_trace_shape (dropAfter : Option Nat)
    (events : List (Except String Event)) :
    ∀ n : Nat, ∃ (sends : List ChatCompletionDelta) (out : Except BridgeError Unit),
      forwardLoop dropAfter events n = (sends.map Action.send ++ [Action.close], out) ∧
      sends <+: decodedRecords events := by
  induction events with
  | nil => exact fun n => ⟨[], Except.ok (), rfl, ⟨[], rfl⟩⟩
  | cons ev rest ih =>
    intro n
    cases ev with
    | error e =>
      exact ⟨[], Except.error (BridgeError.transportError e), rfl, ⟨_, rfl⟩⟩
    | ok x =>
      cases x with
      | other =>
        obtain ⟨sends, out, heq, hpre⟩ := ih n
        refine ⟨sends, out, ?_, ?_⟩
        · rw [forwardLoop]; exact heq
        · rw [decodedRecords_cons_other]; exact hpre
      | message d =>
        cases hj : ChatCompletionDelta.from_json d with
        | error e =>
          refine ⟨[], Except.error (BridgeError.decodeError e), ?_, ⟨_, rfl⟩⟩
          rw [forwardLoop, hj]; rfl
        | ok c =>
          cases hs : sendOk dropAfter n with
          | false =>
            refine ⟨[], Except.error BridgeError.sendError, ?_, ⟨_, rfl⟩⟩
            rw [forwardLoop, hj]
            simp [hs]
          | true =>
            obtain ⟨sends, out, heq, hpre⟩ := ih (n + 1)
            refine ⟨c :: sends, out, ?_, ?_⟩
            · rw [forwardLoop, hj]
              simp [hs, heq]
            · rw [decodedRecords_cons_message_ok rest hj]
              obtain ⟨t, ht⟩ := hpre
              exact ⟨t, by rw [List.cons_append, ht]⟩

theorem countClose_map_send (l : List ChatCompletionDelta) :
    countClose (l.map Action.send) = 0 := by
  induction l with
  | nil => rfl
  | cons c cs ih => rw [List.map_cons, countClose, ih]

theorem countClose_append (l₁ l₂ : List Action) :
    countClose (l₁ ++ l₂) = countClose l₁ + countClose l₂ := by
  induction l₁ with
  | nil => simp [countClose]
  | cons a rest ih =>
    cases a with
    | send c => rw [List.cons_append, countClose, ih, countClose]
    | close => rw [List.cons_append, countClose, ih, countClose]; omega

/-- C2: for every source and consumer behaviour, the trace of queue actions
is a block of sends followed by one closure: the sent records are a prefix
of the arrival-order decoded records (strict arrival order, nothing
reordered), no send happens after the close that accompanies the terminal
outcome, and the queue is closed exactly once on every path. -/
theorem claim_C2_order_single_close (events : List (Except String Event))
    (dropAfter : Option Nat) :
    ∃ (sends : List ChatCompletionDelta) (out : Except BridgeError Unit),
      forward_deserialized_chat_response_stream events dropAfter =
        (sends.map Action.send ++ [Action.close], out) ∧
      sends <+: decodedRecords events ∧
      countClose (forward_deserialized_chat_response_stream events dropAfter).1 = 1 ∧
      (forward_deserialized_chat_response_stream events dropAfter).1.getLast? =
        some Action.close := by
  obtain ⟨sends, out, heq, hpre⟩ := forwardLoop_trace_shape dropAfter events 0
  refine ⟨sends, out, heq, hpre, ?_, ?_⟩
  · rw [forward_deserialized_chat_response_stream, heq]
    simp [countClose_append, countClose_map_send, countClose]
  · rw [forward_deserialized_chat_response_stream, heq]
    exact List.getLast?_concat _

/-- C8: for every opened stream, `ChatCompletionDelta::create` builds the
bridge's queue with capacity exactly 32 and returns the receiving end
together with a task handle carrying the bridge's single terminal outcome;
the records the receiver observes are exactly those the bridge sends. -/
theorem claim_C8_create_channel (events : List (Except String Event))
    (dropAfter : Option Nat) :
    ∃ setup : BridgeSetup,
      ChatCompletionDelta.create (Except.ok events) dropAfter = Except.ok setup ∧
      setup.capacity = 32 ∧
      setup.received =
        sentRecords (forward_deserialized_chat_response_stream events dropAfter).1 ∧
      setup.handleOutcome =
        (forward_deserialized_chat_response_stream events dropAfter).2 :=
  ⟨_, rfl, rfl, rfl, rfl⟩

/-- C9: the bridge is deterministic — two fresh runs over identical raw
event sequences (and identical consumer behaviour) produce identical
queue traces and identical terminal outcomes. -/
theorem claim_C9_deterministic (e₁ e₂ : List (Except String Event))
    (d₁ d₂ : Option Nat) (he : e₁ = e₂) (hd : d₁ = d₂) :
    forward_deserialized_chat_response_stream e₁ d₁ =
      forward_deserialized_chat_response_stream e₂ d₂ := by
  rw [he, hd]

/-- Witness for C9: two runs on the sample source agree. -/
theorem claim_C9_deterministic_witness :
    forward_deserialized_chat_response_stream sampleCleanEvents none =
      forward_deserialized_chat_response_stream sampleCleanEvents none :=
  claim_C9_deterministic sampleCleanEvents sampleCleanEvents none none rfl rfl

theorem forwardLoop_decode_fail (good : List (Except String Event)) :
    ∀ n : Nat,
      (∀ ev ∈ good, isOkEvent ev = true) →
      (∀ p ∈ messagePayloads good, (ChatCompletionDelta.from_json p).isOk = true) →
      ∀ (d : Json) (e : String), ChatCompletionDelta.from_json d = Except.error e →
      ∀ rest : List (Except String Event),
        forwardLoop none (good ++ Except.ok (Event.message d) :: rest) n =
          ((decodedRecords good).map Action.send ++ [Action.close],
           Except.error (BridgeError.decodeError e)) := by
  induction good with
  | nil =>
    intro n _ _ d e hj rest
    rw [List.nil_append, forwardLoop, hj]
    rfl
  | cons ev grest ih =>
    intro n h1 h2 d e hj rest
    cases ev with
    | error e' =>
      have := h1 _ (List.mem_cons_self _ _)
      simp [isOkEvent] at this
    | ok x =>
      cases x with
      | other =>
        rw [List.cons_append, forwardLoop, decodedRecords_cons_other]
        exact ih n (fun v hv => h1 v (List.mem_cons_of_mem _ hv))
          (fun p hp => h2 p (by rw [messagePayloads_cons_other]; exact hp)) d e hj rest
      | message p =>
        have hp := h2 p (by rw [messagePayloads_cons_message]; exact List.mem_cons_self _ _)
        cases hjp : ChatCompletionDelta.from_json p with
        | error e' => rw [hjp] at hp; simp [Except.isOk, Except.toBool] at hp
        | ok c =>
          have ihr := ih (n + 1) (fun v hv => h1 v (List.mem_cons_of_mem _ hv))
            (fun q hq => h2 q
              (by rw [messagePayloads_cons_message]; exact List.mem_cons_of_mem _ hq))
            d e hj rest
          rw [decodedRecords_cons_message_ok grest hjp, List.cons_append, forwardLoop, hjp]
          simp [sendOk, ihr]

/-- C3: if the k-th `Message` payload fails to decode while the first k-1
decode successfully (and pulling succeeds up to there), the bridge sends
exactly those k-1 prior records, sends nothing for the malformed record,
then terminates with the decode-error outcome, closing the queue. -/
theorem claim_C3_decode_error (good : List (Except String Event)) (d : Json) (e : String)
    (rest : List (Except String Event))
    (h1 : ∀ ev ∈ good, isOkEvent ev = true)
    (h2 : ∀ p ∈ messagePayloads good, (ChatCompletionDelta.from_json p).isOk = true)
    (hj : ChatCompletionDelta.from_json d = Except.error e) :
    forward_deserialized_chat_response_stream
        (good ++ Except.ok (Event.message d) :: rest) none =
      ((decodedRecords good).map Action.send ++ [Action.close],
       Except.error (BridgeError.decodeError e)) ∧
    (decodedRecords good).length = (messagePayloads good).length :=
  ⟨forwardLoop_decode_fail good 0 h1 h2 d e hj rest,
   decodedRecords_length_of_all_ok good h2⟩

/-- Witness for C3: one good record, then a payload missing every required
field, then a further good message that is never reached. -/
theorem claim_C3_decode_error_witness :
    forward_deserialized_chat_response_stream
        (sampleGoodLead ++ Except.ok (Event.message (Json.obj [])) ::
          [Except.ok (Event.message (mkDeltaPayload "!"))]) none =
      ([Action.send (mkDelta "Hello"), Action.close],
       Except.error (BridgeError.decodeError "missing field id")) ∧
    (decodedRecords sampleGoodLead).length = (messagePayloads sampleGoodLead).length :=
  claim_C3_decode_error sampleGoodLead (Json.obj []) "missing field id"
    [Except.ok (Event.message (mkDeltaPayload "!"))] (by decide) (by decide) rfl

theorem forwardLoop_transport_fail (good : List (Except String Event)) :
    ∀ n : Nat,
      (∀ ev ∈ good, isOkEvent ev = true) →
      (∀ p ∈ messagePayloads good, (ChatCompletionDelta.from_json p).isOk = true) →
      ∀ (e : String) (rest : List (Except String Event)),
        forwardLoop none (good ++ Except.error e :: rest) n =
          ((decodedRecords good).map Action.send ++ [Action.close],
           Except.error (BridgeError.transportError e)) := by
  induction good with
  | nil =>
    intro n _ _ e rest
    rw [List.nil_append, forwardLoop]
    rfl
  | cons ev grest ih =>
    intro n h1 h2 e rest
    cases ev with
    | error e' =>
      have := h1 _ (List.mem_cons_self _ _)
      simp [isOkEvent] at this
    | ok x =>
      cases x with
      | other =>
        rw [List.cons_append, forwardLoop, decodedRecords_cons_other]
        exact ih n (fun v hv => h1 v (List.mem_cons_of_mem _ hv))
          (fun p hp => h2 p (by rw [messagePayloads_cons_other]; exact hp)) e rest
      | message p =>
        have hp := h2 p (by rw [messagePayloads_cons_message]; exact List.mem_cons_self _ _)
        cases hjp : ChatCompletionDelta.from_json p with
        | error e' => rw [hjp] at hp; simp [Except.isOk, Except.toBool] at hp
        | ok c =>
          have ihr := ih (n + 1) (fun v hv => h1 v (List.mem_cons_of_mem _ hv))
            (fun q hq => h2 q
              (by rw [messagePayloads_cons_message]; exact List.mem_cons_of_mem _ hq))
            e rest
          rw [decodedRecords_cons_message_ok grest hjp, List.cons_append, forwardLoop, hjp]
          simp [sendOk, ihr]

/-- C4: if pulling the next event yields a source-level error after the
events of `good` (all decodable), the bridge terminates immediately with
the transport-error outcome — whatever events would have followed — and the
consumer receives exactly the records decoded so far. -/
theorem claim_C4_transport_error (good : List (Except String Event)) (e : String)
    (rest : List (Except String Event))
    (h1 : ∀ ev ∈ good, isOkEvent ev = true)
    (h2 : ∀ p ∈ messagePayloads good, (ChatCompletionDelta.from_json p).isOk = true) :
    forward_deserialized_chat_response_stream (good ++ Except.error e :: rest) none =
      ((decodedRecords good).map Action.send ++ [Action.close],
       Except.error (BridgeError.transportError e)) ∧
    (decodedRecords good).length = (messagePayloads good).length :=
  ⟨forwardLoop_transport_fail good 0 h1 h2 e rest,
   decodedRecords_length_of_all_ok good h2⟩

/-- Witness for C4: the spec's connection-reset scenario — one record, then
a transport error; the consumer reads exactly one record and the outcome is
the transport error. -/
theorem claim_C4_transport_error_witness :
    forward_deserialized_chat_response_stream
        (sampleGoodLead ++ Except.error "connection reset" :: []) none =
      ([Action.send (mkDelta "Hello"), Action.close],
       Except.error (BridgeError.transportError "connection reset")) ∧
    (decodedRecords sampleGoodLead).length = (messagePayloads sampleGoodLead).length :=
  claim_C4_transport_error sampleGoodLead "connection reset" [] (by decide) (by decide)

theorem forwardLoop_send_fail (events : List (Except String Event)) :
    ∀ (n m : Nat), n ≤ m →
      (∀ ev ∈ events, isOkEvent ev = true) →
      (∀ p ∈ messagePayloads events, (ChatCompletionDelta.from_json p).isOk = true) →
      m - n < (messagePayloads events).length →
      forwardLoop (some m) events n =
        (((decodedRecords events).take (m - n)).map Action.send ++ [Action.close],
         Except.error BridgeError.sendError) := by
  induction events with
  | nil =>
    intro n m _ _ _ hlen
    rw [messagePayloads_nil] at hlen
    exact absurd hlen (Nat.not_lt_zero _)
  | cons ev rest ih =>
    intro n m hnm h1 h2 hlen
    cases ev with
    | error e =>
      have := h1 _ (List.mem_cons_self _ _)
      simp [isOkEvent] at this
    | ok x =>
      cases x with
      | other =>
        rw [forwardLoop, decodedRecords_cons_other]
        exact ih n m hnm (fun v hv => h1 v (List.mem_cons_of_mem _ hv))
          (fun p hp => h2 p (by rw [messagePayloads_cons_other]; exact hp))
          (by rw [messagePayloads_cons_other] at hlen; exact hlen)
      | message p =>
        have hp := h2 p (by rw [messagePayloads_cons_message]; exact List.mem_cons_self _ _)
        cases hjp : ChatCompletionDelta.from_json p with
        | error e' => rw [hjp] at hp; simp [Except.isOk, Except.toBool] at hp
        | ok c =>
          rw [decodedRecords_cons_message_ok rest hjp, forwardLoop, hjp]
          by_cases hmn : n < m
          · have hs : sendOk (some m) n = true := by simp [sendOk]; exact hmn
            have hlen' : m - (n + 1) < (messagePayloads rest).length := by
              rw [messagePayloads_cons_message, List.length_cons] at hlen
              omega
            have ihr := ih (n + 1) m hmn
              (fun v hv => h1 v (List.mem_cons_of_mem _ hv))
              (fun q hq => h2 q
                (by rw [messagePayloads_cons_message]; exact List.mem_cons_of_mem _ hq))
              hlen'
            have htake : m - n = (m - (n + 1)) + 1 := by omega
            rw [htake, List.take_succ_cons]
            simp [hs, ihr]
          · have hnm' : n = m := Nat.le_antisymm hnm (Nat.not_lt.mp hmn)
            have hs : sendOk (some m) n = false := by simp [sendOk]; omega
            have hz : m - n = 0 := by omega
            rw [hz, List.take_zero]
            simp [hs]

/-- C5: if the consumer drops its receiving end after accepting `m`
records while the source still has decodable messages left, the bridge's
next send attempt fails, it terminates with the delivery-error outcome, and
exactly the first `m` records were delivered — nothing beyond the (m+1)-th
send attempt. -/
theorem claim_C5_delivery_error (events : List (Except String Event)) (m : Nat)
    (h1 : ∀ ev ∈ events, isOkEvent ev = true)
    (h2 : ∀ p ∈ messagePayloads events, (ChatCompletionDelta.from_json p).isOk = true)
    (hm : m < (messagePayloads events).length) :
    forward_deserialized_chat_response_stream events (some m) =
      (((decodedRecords events).take m).map Action.send ++ [Action.close],
       Except.error BridgeError.sendError) ∧
    ((decodedRecords events).take m).length = m := by
  constructor
  · exact forwardLoop_send_fail events 0 m (Nat.zero_le m) h1 h2 hm
  · rw [List.length_take, decodedRecords_length_of_all_ok events h2]
    omega

/-- Witness for C5: the consumer accepts one record of the two-message
sample source and then drops the receiver; exactly one record is delivered
and the outcome is the delivery error. -/
theorem claim_C5_delivery_error_witness :
    forward_deserialized_chat_response_stream sampleCleanEvents (some 1) =
      ([Action.send (mkDelta "Hello"), Action.close],
       Except.error BridgeError.sendError) ∧
    ((decodedRecords sampleCleanEvents).take 1).length = 1 :=
  claim_C5_delivery_error sampleCleanEvents 1 (by decide) (by decide) (by decide)

theorem forwardLoop_filter_other (dropAfter : Option Nat)
    (events : List (Except String Event)) :
    ∀ n : Nat,
      forwardLoop dropAfter events n =
        forwardLoop dropAfter (events.filter fun ev => !isOtherEvent ev) n := by
  induction events with
  | nil => intro n; rfl
  | cons ev rest ih =>
    intro n
    cases ev with
    | error e =>
      have hfil : (Except.error e :: rest).filter (fun ev => !isOtherEvent ev)
          = Except.error e :: rest.filter (fun ev => !isOtherEvent ev) := by
        simp [List.filter_cons, isOtherEvent]
      rw [hfil, forwardLoop, forwardLoop]
    | ok x =>
      cases x with
      | other =>
        have hfil : (Except.ok Event.other :: rest).filter (fun ev => !isOtherEvent ev)
            = rest.filter (fun ev => !isOtherEvent ev) := by
          simp [List.filter_cons, isOtherEvent]
        rw [hfil, forwardLoop]
        exact ih n
      | message d =>
        have hfil : (Except.ok (Event.message d) :: rest).filter (fun ev => !isOtherEvent ev)
            = Except.ok (Event.message d) :: rest.filter (fun ev => !isOtherEvent ev) := by
          simp [List.filter_cons, isOtherEvent]
        rw [hfil, forwardLoop, forwardLoop]
        cases hj : ChatCompletionDelta.from_json d with
        | error e => rfl
        | ok c =>
          cases hs : sendOk dropAfter n with
          | false => simp [hs]
          | true => simp [hs, ih (n + 1)]

/-- C6: non-`Message` events are inert — inserting one anywhere leaves the
bridge's trace and outcome unchanged, and the whole run depends only on the
source with every non-`Message` event removed (so they cause no send, never
appear as records, and never affect ordering or outcome). -/
theorem claim_C6_other_events_inert :
    (∀ (pre post : List (Except String Event)) (dropAfter : Option Nat),
      forward_deserialized_chat_response_stream
          (pre ++ Except.ok Event.other :: post) dropAfter =
        forward_deserialized_chat_response_stream (pre ++ post) dropAfter) ∧
    (∀ (events : List (Except String Event)) (dropAfter : Option Nat),
      forward_deserialized_chat_response_stream events dropAfter =
        forward_deserialized_chat_response_stream
          (events.filter fun ev => !isOtherEvent ev) dropAfter) := by
  constructor
  · intro pre post dropAfter
    have h1 := forwardLoop_filter_other dropAfter (pre ++ Except.ok Event.other :: post) 0
    have h2 := forwardLoop_filter_other dropAfter (pre ++ post) 0
    have hf : (pre ++ Except.ok Event.other :: post).filter (fun ev => !isOtherEvent ev)
        = (pre ++ post).filter (fun ev => !isOtherEvent ev) := by
      simp [List.filter_append, List.filter_cons, isOtherEvent]
    unfold forward_deserialized_chat_response_stream
    rw [h1, hf, ← h2]
  · intro events dropAfter
    exact forwardLoop_filter_other dropAfter events 0

/-- C7: on well-typed payloads, decoding succeeds exactly when the required
fields `id`, `object`, `created`, `model`, `choices` and, inside each
choice, `index` and `delta` are supplied: any combination of the optional
fields (`finish_reason` and the delta's `role`, `content`, `name`, with
`usage` absent throughout) may be absent and the absent ones decode to
`None`, while removing any single required field makes decoding fail. -/
theorem claim_C7_schema :
    (∀ fr ro co na : Bool,
      ChatCompletionDelta.from_json (samplePayload fr ro co na) =
        Except.ok (sampleRecord fr ro co na)) ∧
    (ChatCompletionDelta.from_json (samplePayloadMissing "id")).isOk = false ∧
    (ChatCompletionDelta.from_json (samplePayloadMissing "object")).isOk = false ∧
    (ChatCompletionDelta.from_json (samplePayloadMissing "created")).isOk = false ∧
    (ChatCompletionDelta.from_json (samplePayloadMissing "model")).isOk = false ∧
    (ChatCompletionDelta.from_json (samplePayloadMissing "choices")).isOk = false ∧
    (ChatCompletionDelta.from_json (samplePayloadChoiceMissing "index")).isOk = false ∧
    (ChatCompletionDelta.from_json (samplePayloadChoiceMissing "delta")).isOk = false := by
  refine ⟨?_, rfl, rfl, rfl, rfl, rfl, rfl, rfl⟩
  intro fr ro co na
  cases fr <;> cases ro <;> cases co <;> cases na <;> rfl

/-- C10: `create_stream` issues the caller's request with the `stream`
field overwritten to `Some(true)` — whatever was set before — and every
other field exactly as the caller built it. -/
theorem claim_C10_stream_overwritten (b : ChatCompletionBuilder)
    (r : ChatCompletionRequest) (h : ChatCompletionBuilder.build b = Except.ok r) :
    ChatCompletionBuilder.streamRequest b = Except.ok { r with stream := some true } := by
  cases hm : b.model with
  | none =>
    cases hmsg : b.messages with
    | none => simp [ChatCompletionBuilder.build, hm, hmsg] at h
    | some msgs => simp [ChatCompletionBuilder.build, hm, hmsg] at h
  | some m =>
    cases hmsg : b.messages with
    | none => simp [ChatCompletionBuilder.build, hm, hmsg] at h
    | some msgs =>
      simp only [ChatCompletionBuilder.build, hm, hmsg, Except.ok.injEq] at h
      subst h
      simp [ChatCompletionBuilder.streamRequest, ChatCompletionBuilder.build, hm, hmsg]

/-- Witness for C10: on a builder that had set `stream` to `Some(false)`
and a temperature, the issued request carries `stream = Some(true)` and the
other fields untouched. -/
theorem claim_C10_stream_overwritten_witness :
    ChatCompletionBuilder.streamRequest sampleBuilder =
      Except.ok { sampleBuiltRequest with stream := some true } :=
  claim_C10_stream_overwritten sampleBuilder sampleBuiltRequest rfl

end OpenAI
